import Mathlib

set_option maxRecDepth 4000

/-!
Shallow embedding of `src/app.py` of the market-research-assistant
repository (a Streamlit pipeline: industry validation → Wikipedia URL
retrieval → report generation), together with theorems checking the
natural-language specification against it.

External collaborators (the Wikipedia retriever and the text-generation
service) are modelled as oracle parameters; a call that raises an
exception is an oracle returning `Except.error`.  Python string
operations are modelled by structural functions on the character list of
a `String`, so that every definition evaluates inside the kernel.
-/

namespace MRA

/-! ### Python string primitives -/

/-- Python `s.lower()` (ASCII case folding suffices for the inputs of
this program). -/
def pyLower (s : String) : String := ⟨s.data.map Char.toLower⟩

/-- Python `s.upper()`. -/
def pyUpper (s : String) : String := ⟨s.data.map Char.toUpper⟩

/-- Python `s.strip()`: remove leading and trailing whitespace. -/
def pyStrip (s : String) : String :=
  ⟨((s.data.dropWhile Char.isWhitespace).reverse.dropWhile Char.isWhitespace).reverse⟩

/-- Python `s[:n]`: the first `n` characters. -/
def pySliceTo (n : Nat) (s : String) : String := ⟨s.data.take n⟩

/-- Python `s.startswith(pre)`. -/
def pyStartsWith (s pre : String) : Bool := pre.data.isPrefixOf s.data

/-- Auxiliary for `pyContains`: does `pat` occur as a contiguous
sublist of the first argument? -/
def charsContains : List Char → List Char → Bool
  | [], pat => pat.isEmpty
  | c :: rest, pat => pat.isPrefixOf (c :: rest) || charsContains rest pat

/-- Python `pat in s` for strings: substring containment. -/
def pyContains (s pat : String) : Bool := charsContains s.data pat.data

/-- Auxiliary for `pySplitChar`: split a character list at every
occurrence of `sep`, keeping empty segments (Python `s.split(sep)`
semantics); `acc` is the current segment, reversed. -/
def splitCharAux (sep : Char) : List Char → List Char → List (List Char)
  | [], acc => [acc.reverse]
  | c :: rest, acc =>
    if c = sep then acc.reverse :: splitCharAux sep rest []
    else splitCharAux sep rest (c :: acc)

/-- Python `s.split(sep)` for a one-character separator. -/
def pySplitChar (sep : Char) (s : String) : List String :=
  (splitCharAux sep s.data []).map String.mk

/-- Auxiliary for `pySplitStr`: fuelled split of a character list at
every occurrence of the non-empty separator `sep` (the fuel, initially
the list length, only decreases and never runs out). -/
def splitStrAux (sep : List Char) : Nat → List Char → List Char → List (List Char)
  | 0, s, acc => [acc.reverse ++ s]
  | _ + 1, [], acc => [acc.reverse]
  | fuel + 1, c :: rest, acc =>
    if sep.isPrefixOf (c :: rest) then
      acc.reverse :: splitStrAux sep fuel ((c :: rest).drop sep.length) []
    else
      splitStrAux sep fuel rest (c :: acc)

/-- Python `s.split(sep)` for a non-empty multi-character separator. -/
def pySplitStr (sep : String) (s : String) : List String :=
  if sep.data.isEmpty then [s]
  else (splitStrAux sep.data s.data.length s.data []).map String.mk

/-- Python `s.replace(a, b)` for one-character pattern and
replacement. -/
def pyReplaceChar (a b : Char) (s : String) : String :=
  ⟨s.data.map fun c => if c = a then b else c⟩

/-- Auxiliary for `wordCount`: number of maximal runs of non-whitespace
characters; `inWord` records whether the previous character belonged to
a word. -/
def countRunsAux : List Char → Bool → Nat
  | [], _ => 0
  | c :: rest, inWord =>
    if c.isWhitespace then countRunsAux rest false
    else (if inWord then 0 else 1) + countRunsAux rest true

/-- Python `len(s.split())`: the number of whitespace-delimited
non-empty tokens of the string. -/
def wordCount (s : String) : Nat := countRunsAux s.data false

/-! ### Data model -/

/-- A document returned by the Wikipedia retriever: `page_content` plus
the optional source-metadata URL (absent when the hit carries no
source key). -/
structure Doc where
  source : Option String
  content : String
  deriving DecidableEq, Repr

/-- A candidate entry built in `get_wikipedia_urls`: the source URL and
the first 500 characters of the page content. -/
structure Candidate where
  url : String
  summary : String
  deriving DecidableEq, Repr

/-- The Wikipedia retriever oracle: query ↦ documents, or an
exception. -/
abbrev Retriever := String → Except String (List Doc)

/-- The text-generation oracle: prompt ↦ response text, or an
exception. -/
abbrev GenService := String → Except String String

/-! ### `validate_industry` (src/app.py lines 53-85) -/

/-- Fixed message returned when the API key is missing. -/
def keyMissingMsg : String := "Please enter your API key in the sidebar first."

/-- Fixed message returned when the industry input is blank. -/
def industryMissingMsg : String := "Please provide an industry name."

/-- Fixed message returned when the model denies that the input is an
industry. -/
def notValidMsg : String :=
  "This doesn\x27t appear to be a valid industry. Please provide an industry name (e.g., \x27automotive\x27, \x27healthcare\x27, \x27technology\x27)."

/-- The validation prompt built in `validate_industry`. -/
def validatePrompt (industryInput : String) : String :=
  "Is the following text a valid industry name or sector? \n        \nText: \"" ++ industryInput
    ++ "\"\n\nRespond with only \"YES\" if it\x27s a valid industry/sector (e.g., \"automotive\", \"healthcare\", \"technology\", \"retail\").\nRespond with only \"NO\" if it\x27s not (e.g., random words, questions, commands).\n\nResponse:"

/-- The body of the `try:` block of `validate_industry`: ask the model
and accept iff the stripped upper-cased response contains "YES".  An
exception from the generation call escapes to the `except` clause. -/
def validateIndustryBody (gen : GenService) (industryInput : String) :
    Except String (Bool × String) :=
  match gen (validatePrompt industryInput) with
  | .error e => .error e
  | .ok resp =>
    let validation := pyUpper (pyStrip resp)
    if pyContains validation "YES" then
      .ok (true, pyStrip industryInput)
    else
      .ok (false, notValidMsg)

/-- Function `validate_industry(industry_input, api_key)`: missing-key check,
blank-input check, then the guarded model call with its `except`
fallback. -/
def validate_industry (gen : GenService) (industryInput apiKey : String) :
    Bool × String :=
  if apiKey = "" then (false, keyMissingMsg)
  else if industryInput = "" ∨ pyStrip industryInput = "" then (false, industryMissingMsg)
  else
    match validateIndustryBody gen industryInput with
    | .ok r => r
    | .error e => (false, "Error validating industry: " ++ e)

/-! ### `get_wikipedia_urls` (src/app.py lines 87-134) -/

/-- The candidate-extraction loop of `get_wikipedia_urls`: every
document carrying a `source` URL contributes `(url, first 500 chars of
content)`, in hit order; documents without a source are dropped. -/
def candidatesOf (docs : List Doc) : List Candidate :=
  docs.filterMap fun d =>
    match d.source with
    | some url => some ⟨url, pySliceTo 500 d.content⟩
    | none => none

/-- The selection prompt of `get_wikipedia_urls`: a numbered
(1-indexed) list of the candidate URLs inside the fixed instruction
text. -/
def selectionPrompt (industry : String) (cands : List Candidate) : String :=
  "You are helping with market research for the \"" ++ industry
    ++ "\" industry.\n\nBelow are Wikipedia pages that might be relevant. Select the 5 MOST relevant URLs for understanding this industry from a business perspective.\n\nConsider:\n- Industry overview and definition\n- Key companies and players\n- Market trends and history\n- Related technologies or products\n- Economic impact\n\nCandidates:\n"
    ++ String.intercalate "\n" (cands.enum.map fun p => toString (p.1 + 1) ++ ". " ++ p.2.url)
    ++ "\n\nRespond with ONLY the 5 URLs you selected, one per line, no numbering or explanations:"

/-- The response parsing of `get_wikipedia_urls`: split the stripped
response on newlines, strip each line, keep the lines starting with
"http". -/
def parseSelectedUrls (respText : String) : List String :=
  ((pySplitChar '\n' (pyStrip respText)).map pyStrip).filter fun u => pyStartsWith u "http"

/-- The body of the `try:` block of `get_wikipedia_urls`: retrieve
documents for the single query `industry`, extract candidates, ask the
model to select, parse its response, and keep the first 5 parsed URLs.
An exception from either external call escapes to the `except`
clause. -/
def getWikipediaUrlsBody (retr : Retriever) (gen : GenService) (industry : String) :
    Except String (List String) :=
  match retr industry with
  | .error e => .error e
  | .ok docs =>
    let candidates := candidatesOf docs
    match gen (selectionPrompt industry candidates) with
    | .error e => .error e
    | .ok resp =>
      let selectedUrls := parseSelectedUrls resp
      .ok (if selectedUrls.length ≥ 5 then selectedUrls.take 5 else selectedUrls)

/-- Function `get_wikipedia_urls(industry, api_key)`: the guarded body with its
`except` fallback to the empty list. -/
def get_wikipedia_urls (retr : Retriever) (gen : GenService) (industry : String) :
    List String :=
  match getWikipediaUrlsBody retr gen industry with
  | .ok urls => urls
  | .error _ => []

/-! ### `generate_report` (src/app.py lines 136-202) -/

/-- Python `url.split("/wiki/")[-1].replace("_", " ")` — with the
separators as single-quoted literals in the source — is the page title
extracted from a Wikipedia URL (src/app.py line 150). -/
def pageTitleFromUrl (url : String) : String :=
  pyReplaceChar '_' ' ' ((pySplitStr "/wiki/" url).getLastD "")

/-- The per-URL content loop of `generate_report`: for each URL,
retrieve documents for its page title; a retrieval exception (inner
`except: continue`) or an empty document list silently skips the URL;
otherwise the first 3000 characters of the first document are kept. -/
def allContent (retr : Retriever) (urls : List String) : List String :=
  urls.filterMap fun url =>
    match retr (pageTitleFromUrl url) with
    | .error _ => none
    | .ok [] => none
    | .ok (d :: _) => some (pySliceTo 3000 d.content)

/-- Variable `combined_content`: the per-URL excerpts joined with the visible
separator. -/
def combinedContent (retr : Retriever) (urls : List String) : String :=
  String.intercalate "\n\n---\n\n" (allContent retr urls)

/-- The report-generation prompt, receiving the already-sliced
(`[:15000]`) combined content. -/
def reportPrompt (industry content : String) : String :=
  "You are a business analyst writing a market research report on the " ++ industry
    ++ " industry.\n\nBased on the Wikipedia content below, write a comprehensive industry report that covers:\n1. Industry overview and definition\n2. Key players and major companies\n3. Market trends and recent developments\n4. Challenges and opportunities\n5. Future outlook\n\nRequirements:\n- Less than 500 words\n- Professional business tone\n- Well-structured with clear sections\n- Based ONLY on the provided Wikipedia content\n- Cite specific facts and figures when available\n\nWikipedia Content:\n"
    ++ content ++ "\n\nWrite the industry report:"

/-- The corrective condensing prompt issued when the draft exceeds 500
words. -/
def condensePrompt (wc : Nat) (report : String) : String :=
  "The following report is " ++ toString wc
    ++ " words. Please condense it to under 500 words while keeping all key information:\n\n"
    ++ report ++ "\n\nCondensed report (under 500 words):"

/-- The body of the `try:` block of `generate_report`.  Besides the
report text it returns the list of prompts sent to the generation
service, so that theorems can speak about which requests were
issued. -/
def generateReportBody (retr : Retriever) (gen : GenService)
    (industry : String) (urls : List String) :
    Except String (String × List String) :=
  let combined := combinedContent retr urls
  let p1 := reportPrompt industry (pySliceTo 15000 combined)
  match gen p1 with
  | .error e => .error e
  | .ok resp =>
    let report := pyStrip resp
    let wc := wordCount report
    if wc > 500 then
      let p2 := condensePrompt wc report
      match gen p2 with
      | .error e => .error e
      | .ok resp2 => .ok (pyStrip resp2, [p1, p2])
    else
      .ok (report, [p1])

/-- Function `generate_report(industry, urls, api_key)`: the guarded body with
its `except` fallback to the empty string. -/
def generate_report (retr : Retriever) (gen : GenService)
    (industry : String) (urls : List String) : String :=
  match generateReportBody retr gen industry urls with
  | .ok (r, _) => r
  | .error _ => ""

/-! ### Spec-modelled definitions

The specification describes two pieces of this repository that are not
present under `src/` (only this single app variant is): the Strategy A
lexical scorer and the URL constructor.  They are modelled from the
the words of the spec. -/

/-- Modelled from the spec: the fixed "industry signal" vocabulary of
Strategy A (§4.2); no such vocabulary exists in src/. -/
def industrySignalTerms : List String :=
  ["industry", "sector", "market", "economics", "value chain", "supply chain"]

/-- Modelled from the spec: the fixed "domain signal" vocabulary of
Strategy A (§4.2); no such vocabulary exists in src/. -/
def domainSignalTerms : List String :=
  ["medical", "medicine", "hospital", "public health", "health insurance", "pharmaceutical"]

/-- Modelled from the spec: the fixed "negative signal" vocabulary of
Strategy A (§4.2); no such vocabulary exists in src/. -/
def negativeSignalTerms : List String :=
  ["killing", "murder", "death", "shooting", "attack", "trial", "case", "episode", "film", "song", "album", "game"]

/-- Modelled from the spec: the title-dependent part of the Strategy A
score (§4.2) — +10 for the query as a substring, +8 for the
"health care"/"healthcare" bonus, +5 per industry-signal term, +4 per
domain-signal term, -12 per negative-signal term; `t` and `q` are
already lowercased. -/
def titleScore (t q : String) : Int :=
  (if pyContains t q then 10 else 0)
    + (if pyContains t "health care" || pyContains t "healthcare" then 8 else 0)
    + (industrySignalTerms.map fun term => if pyContains t term then (5 : Int) else 0).sum
    + (domainSignalTerms.map fun term => if pyContains t term then (4 : Int) else 0).sum
    + (negativeSignalTerms.map fun term => if pyContains t term then (-12 : Int) else 0).sum

/-- Modelled from the spec: the body-dependent part of the Strategy A
score (§4.2) — +2 per industry-signal term and +1 per domain-signal
term present in the (lowercased) body. -/
def bodyScore (b : String) : Int :=
  (industrySignalTerms.map fun term => if pyContains b term then (2 : Int) else 0).sum
    + (domainSignalTerms.map fun term => if pyContains b term then (1 : Int) else 0).sum

/-- Modelled from the spec: `score_wiki_doc` of Strategy A (§4.2),
absent from src/ — the weighted rules are evaluated independently and
summed, over the lowercased title, body and query. -/
def score_wiki_doc (title body query : String) : Int :=
  titleScore (pyLower title) (pyLower query) + bodyScore (pyLower body)

/-- Modelled from the spec: `build_wikipedia_url` (§6, §8), absent from
src/ (src/app.py line 150 contains only the inverse transform, URL →
page title) — space-to-underscore substitution into the fixed URL
shape. -/
def build_wikipedia_url (lang identifier : String) : String :=
  "https://" ++ lang ++ ".wikipedia.org/wiki/" ++ pyReplaceChar ' ' '_' identifier

/-! ### Concrete inputs used by witnesses and counterexamples -/

/-- A 501-word string (`n + 1` copies of "w" separated by single
spaces, as a character list). -/
def wchars : Nat → List Char
  | 0 => ['w']
  | n + 1 => 'w' :: ' ' :: wchars n

/-- Ten distinct retriever hits, as used by the Strategy-B parsing
counterexample. -/
def tenDocs : List Doc :=
  [⟨some "https://en.wikipedia.org/wiki/Page0", "body"⟩,
   ⟨some "https://en.wikipedia.org/wiki/Page1", "body"⟩,
   ⟨some "https://en.wikipedia.org/wiki/Page2", "body"⟩,
   ⟨some "https://en.wikipedia.org/wiki/Page3", "body"⟩,
   ⟨some "https://en.wikipedia.org/wiki/Page4", "body"⟩,
   ⟨some "https://en.wikipedia.org/wiki/Page5", "body"⟩,
   ⟨some "https://en.wikipedia.org/wiki/Page6", "body"⟩,
   ⟨some "https://en.wikipedia.org/wiki/Page7", "body"⟩,
   ⟨some "https://en.wikipedia.org/wiki/Page8", "body"⟩,
   ⟨some "https://en.wikipedia.org/wiki/Page9", "body"⟩]

end MRA
namespace MRA

/-! ### Helper lemmas -/

theorem wordCount_wchars (n : Nat) : countRunsAux (wchars n) false = n + 1 := by
  induction n with
  | zero => decide
  | succ n ih =>
    show countRunsAux ('w' :: ' ' :: wchars n) false = n + 2
    rw [countRunsAux, if_neg (by decide), if_neg (by decide), countRunsAux,
      if_pos (by decide), ih]
    omega

theorem wchars_head (n : Nat) : ∃ t, wchars n = 'w' :: t := by
  cases n <;> exact ⟨_, rfl⟩

theorem wchars_rev_head (n : Nat) : ∃ t, (wchars n).reverse = 'w' :: t := by
  induction n with
  | zero => exact ⟨[], rfl⟩
  | succ n ih =>
    obtain ⟨t, ht⟩ := ih
    exact ⟨t ++ [' ', 'w'], by simp [wchars, ht]⟩

theorem pyStrip_wchars (n : Nat) : pyStrip ⟨wchars n⟩ = ⟨wchars n⟩ := by
  obtain ⟨t, ht⟩ := wchars_head n
  obtain ⟨t2, ht2⟩ := wchars_rev_head n
  have h1 : (wchars n).dropWhile Char.isWhitespace = wchars n := by
    rw [ht, List.dropWhile_cons, if_neg (by decide)]
  have h2 : (wchars n).reverse.dropWhile Char.isWhitespace = (wchars n).reverse := by
    rw [ht2, List.dropWhile_cons, if_neg (by decide)]
  unfold pyStrip
  congr 1
  show (((wchars n).dropWhile Char.isWhitespace).reverse.dropWhile Char.isWhitespace).reverse
      = wchars n
  rw [h1, h2, List.reverse_reverse]

theorem wordCount_wchars_str (n : Nat) : wordCount ⟨wchars n⟩ = n + 1 :=
  wordCount_wchars n

/-- Shared helper: when the first draft is over budget, the body of
`generate_report` issues the single condense request and returns its
stripped response together with the two issued prompts. -/
theorem generateReportBody_over (retr : Retriever) (gen : GenService)
    (ind : String) (urls : List String) (d r2 : String)
    (h1 : gen (reportPrompt ind (pySliceTo 15000 (combinedContent retr urls))) = .ok d)
    (h2 : wordCount (pyStrip d) > 500)
    (h3 : gen (condensePrompt (wordCount (pyStrip d)) (pyStrip d)) = .ok r2) :
    generateReportBody retr gen ind urls =
      .ok (pyStrip r2,
        [reportPrompt ind (pySliceTo 15000 (combinedContent retr urls)),
         condensePrompt (wordCount (pyStrip d)) (pyStrip d)]) := by
  simp only [generateReportBody, h1, h2, h3, if_true]

/-! ### Claim theorems -/

/-- C7: whenever the first draft exceeds 500 words, `generate_report`
issues exactly one corrective regeneration request (the prompt list of
the run is exactly the initial report prompt followed by the single
condense prompt, which embeds the draft text and the measured word
count), and the returned report is the stripped response to it. -/
theorem C7_single_condense_pass (retr : Retriever) (gen : GenService)
    (ind : String) (urls : List String) (d r2 : String)
    (h1 : gen (reportPrompt ind (pySliceTo 15000 (combinedContent retr urls))) = .ok d)
    (h2 : wordCount (pyStrip d) > 500)
    (h3 : gen (condensePrompt (wordCount (pyStrip d)) (pyStrip d)) = .ok r2) :
    generateReportBody retr gen ind urls =
      .ok (pyStrip r2,
        [reportPrompt ind (pySliceTo 15000 (combinedContent retr urls)),
         condensePrompt (wordCount (pyStrip d)) (pyStrip d)]) :=
  generateReportBody_over retr gen ind urls d r2 h1 h2 h3

theorem C7_witness :
    wordCount (pyStrip ⟨wchars 500⟩) > 500 ∧
    generateReportBody (fun _ => .ok []) (fun _ => .ok ⟨wchars 500⟩) "automotive" [] =
      .ok (pyStrip ⟨wchars 500⟩,
        [reportPrompt "automotive"
          (pySliceTo 15000 (combinedContent (fun _ => .ok []) [])),
         condensePrompt (wordCount (pyStrip ⟨wchars 500⟩)) (pyStrip ⟨wchars 500⟩)]) := by
  have h : wordCount (pyStrip ⟨wchars 500⟩) > 500 := by
    rw [pyStrip_wchars, wordCount_wchars_str]
    omega
  exact ⟨h, C7_single_condense_pass _ _ _ _ _ _ rfl h rfl⟩

/-- C1: code bug — `generate_report` has no deterministic truncation
backstop: if the generation service returns the same over-budget text
for every request (first draft and condense request alike), the report
handed to the caller is that text unchanged, with a word count above
500. -/
theorem C1_no_truncation_backstop (retr : Retriever) (gen : GenService)
    (ind : String) (urls : List String) (resp : String)
    (hgen : ∀ p, gen p = .ok resp)
    (hover : wordCount (pyStrip resp) > 500) :
    generate_report retr gen ind urls = pyStrip resp ∧
    wordCount (generate_report retr gen ind urls) > 500 := by
  have hbody := generateReportBody_over retr gen ind urls resp resp
    (hgen _) hover (hgen _)
  constructor
  · rw [generate_report, hbody]
  · rw [generate_report, hbody]
    exact hover

theorem C1_witness :
    wordCount (pyStrip ⟨wchars 500⟩) > 500 ∧
    wordCount (generate_report (fun _ => .ok []) (fun _ => .ok ⟨wchars 500⟩)
      "automotive" []) > 500 := by
  have h : wordCount (pyStrip ⟨wchars 500⟩) > 500 := by
    rw [pyStrip_wchars, wordCount_wchars_str]
    omega
  exact ⟨h,
    (C1_no_truncation_backstop (fun _ => .ok []) (fun _ => .ok ⟨wchars 500⟩)
      "automotive" [] ⟨wchars 500⟩ (fun _ => rfl) h).2⟩

end MRA
namespace MRA

/-- C3: every pipeline stage degrades an exception from an external
call into its defined empty result instead of propagating it — an
erroring `validate_industry` body yields invalid-with-message, an
erroring `get_wikipedia_urls` body yields the empty URL list, and an
erroring `generate_report` body yields the empty report text. -/
theorem C3_exceptions_degraded :
    (∀ (gen : GenService) (ind key e : String),
       key ≠ "" → ¬(ind = "" ∨ pyStrip ind = "") →
       validateIndustryBody gen ind = .error e →
       validate_industry gen ind key = (false, "Error validating industry: " ++ e)) ∧
    (∀ (retr : Retriever) (gen : GenService) (ind e : String),
       getWikipediaUrlsBody retr gen ind = .error e →
       get_wikipedia_urls retr gen ind = []) ∧
    (∀ (retr : Retriever) (gen : GenService) (ind : String) (urls : List String)
       (e : String),
       generateReportBody retr gen ind urls = .error e →
       generate_report retr gen ind urls = "") := by
  refine ⟨fun gen ind key e hkey hind hbody => ?_,
    fun retr gen ind e hbody => ?_,
    fun retr gen ind urls e hbody => ?_⟩
  · unfold validate_industry
    rw [if_neg hkey, if_neg hind, hbody]
  · unfold get_wikipedia_urls
    rw [hbody]
  · unfold generate_report
    rw [hbody]

theorem C3_witness :
    ("k" ≠ "" ∧ ¬(("automotive" : String) = "" ∨ pyStrip "automotive" = "") ∧
      validateIndustryBody (fun _ => .error "boom") "automotive" = .error "boom" ∧
      validate_industry (fun _ => .error "boom") "automotive" "k" =
        (false, "Error validating industry: boom")) ∧
    (getWikipediaUrlsBody (fun _ => .error "down") (fun _ => .ok "x") "automotive" =
        .error "down" ∧
      get_wikipedia_urls (fun _ => .error "down") (fun _ => .ok "x") "automotive" = []) ∧
    (generateReportBody (fun _ => .ok []) (fun _ => .error "quota") "automotive" [] =
        .error "quota" ∧
      generate_report (fun _ => .ok []) (fun _ => .error "quota") "automotive" [] = "") :=
  ⟨⟨by decide, by decide, rfl,
      C3_exceptions_degraded.1 _ _ _ _ (by decide) (by decide) rfl⟩,
    ⟨rfl, C3_exceptions_degraded.2.1 _ _ _ _ rfl⟩,
    ⟨rfl, C3_exceptions_degraded.2.2 _ _ _ _ _ rfl⟩⟩

/-- C9: `validate_industry` returns the fixed missing-key message
whenever the API key is empty (for every industry input, so the key
check takes precedence over the blank check), returns the fixed
blank-input message without consulting the generation oracle when the
key is present but the industry is empty or whitespace-only, and
otherwise, when the generation call succeeds, its verdict is exactly
whether the stripped upper-cased response contains "YES". -/
theorem C9_validate_industry_guards :
    (∀ (gen : GenService) (ind : String),
       validate_industry gen ind "" = (false, keyMissingMsg)) ∧
    (∀ (gen gen' : GenService) (ind key : String),
       key ≠ "" → (ind = "" ∨ pyStrip ind = "") →
       validate_industry gen ind key = (false, industryMissingMsg) ∧
       validate_industry gen ind key = validate_industry gen' ind key) ∧
    (∀ (gen : GenService) (ind key resp : String),
       key ≠ "" → ¬(ind = "" ∨ pyStrip ind = "") →
       gen (validatePrompt ind) = .ok resp →
       (validate_industry gen ind key).1 =
         pyContains (pyUpper (pyStrip resp)) "YES") := by
  refine ⟨fun gen ind => ?_,
    fun gen gen' ind key hkey hind => ?_,
    fun gen ind key resp hkey hind hresp => ?_⟩
  · unfold validate_industry
    rw [if_pos rfl]
  · constructor
    · unfold validate_industry
      rw [if_neg hkey, if_pos hind]
    · unfold validate_industry
      rw [if_neg hkey, if_pos hind, if_neg hkey, if_pos hind]
  · unfold validate_industry
    rw [if_neg hkey, if_neg hind]
    cases hc : pyContains (pyUpper (pyStrip resp)) "YES" with
    | false => simp [validateIndustryBody, hresp, hc]
    | true => simp [validateIndustryBody, hresp, hc]

end MRA
namespace MRA

theorem C9_witness :
    validate_industry (fun _ => .ok "YES") "automotive" "" = (false, keyMissingMsg) ∧
    validate_industry (fun _ => .ok "YES") "   " "k" = (false, industryMissingMsg) ∧
    (validate_industry (fun _ => .ok " yes, that is an industry ") "automotive" "k").1 =
      pyContains (pyUpper (pyStrip " yes, that is an industry ")) "YES" :=
  ⟨C9_validate_industry_guards.1 _ _,
   (C9_validate_industry_guards.2.1 (fun _ => .ok "YES") (fun _ => .ok "YES") "   " "k"
      (by decide) (Or.inr (by decide))).1,
   C9_validate_industry_guards.2.2 _ _ _ _ (by decide) (by decide) rfl⟩

/-- C2: counterexample — the candidate stage of `get_wikipedia_urls`
does not deduplicate (two hits with the same identifier stay
duplicated), and it issues no query variants: a retriever that fails on
the raw industry string while answering every other query (in
particular "health care industry", "health care market",
"health care sector") still yields the empty degraded output. -/
theorem C2_counterexample :
    ¬ List.Nodup ((candidatesOf
        [⟨some "https://en.wikipedia.org/wiki/Health_care", "a"⟩,
         ⟨some "https://en.wikipedia.org/wiki/Health_care", "b"⟩]).map Candidate.url) ∧
    get_wikipedia_urls
      (fun q => if q = "health care" then .error "rate limited"
        else .ok [⟨some "https://en.wikipedia.org/wiki/Health_care_industry", "c"⟩])
      (fun _ => .ok "https://en.wikipedia.org/wiki/Health_care_industry")
      "health care" = [] :=
  ⟨by decide, rfl⟩

/-- C2 (amended): the candidate-aggregation stage of
`get_wikipedia_urls` issues exactly one retrieval query — the raw
industry string (the stage result depends only on the answer of the
retriever to that single query) — and its candidate list keeps every hit
carrying an identifier, in hit order, duplicates included (its
identifier sequence is exactly the sequence of source identifiers of
the hits). -/
theorem C2_single_query_no_dedup :
    (∀ (retr retr' : Retriever) (gen : GenService) (ind : String),
       retr ind = retr' ind →
       getWikipediaUrlsBody retr gen ind = getWikipediaUrlsBody retr' gen ind) ∧
    (∀ docs : List Doc,
       (candidatesOf docs).map Candidate.url = docs.filterMap Doc.source) := by
  constructor
  · intro retr retr' gen ind h
    unfold getWikipediaUrlsBody
    rw [h]
  · intro docs
    induction docs with
    | nil => rfl
    | cons d rest ih =>
      cases hs : d.source with
      | none => simpa [candidatesOf, List.filterMap_cons, hs] using ih
      | some u => simpa [candidatesOf, List.filterMap_cons, hs] using ih

theorem C2_witness :
    getWikipediaUrlsBody (fun _ => .ok tenDocs) (fun _ => .ok "x") "automotive" =
      getWikipediaUrlsBody
        (fun q => if q = "automotive" then .ok tenDocs else .error "never issued")
        (fun _ => .ok "x") "automotive" ∧
    (candidatesOf tenDocs).map Candidate.url = tenDocs.filterMap Doc.source :=
  ⟨C2_single_query_no_dedup.1 _ _ _ _ rfl, C2_single_query_no_dedup.2 tenDocs⟩

/-- C4: counterexample — on the malformed response "abc, , 99" with 10
candidates available, `get_wikipedia_urls` returns the empty list, not
the first 5 candidates (which exist and are non-empty). -/
theorem C4_counterexample :
    get_wikipedia_urls (fun _ => .ok tenDocs) (fun _ => .ok "abc, , 99") "automotive"
      = [] ∧
    (candidatesOf tenDocs).length = 10 ∧
    ((candidatesOf tenDocs).take 5).map Candidate.url ≠ [] :=
  ⟨rfl, by decide, by decide⟩

/-- C4 (amended): the selection parsing of `get_wikipedia_urls` splits
the response on newlines, trims each line and silently skips every line
not starting with "http"; at most 5 URLs are kept; when zero valid
lines parse the stage returns the empty list (surfaced upstream as a
failure), not the first K candidates — so every successful result has
at most 5 entries, all starting with "http". -/
theorem C4_selection_parsing (retr : Retriever) (gen : GenService) (ind : String)
    (urls : List String)
    (h : getWikipediaUrlsBody retr gen ind = .ok urls) :
    urls.length ≤ 5 ∧ ∀ u ∈ urls, pyStartsWith u "http" = true := by
  unfold getWikipediaUrlsBody at h
  cases hr : retr ind with
  | error e => rw [hr] at h; simp at h
  | ok docs =>
    rw [hr] at h
    simp only [] at h
    cases hg : gen (selectionPrompt ind (candidatesOf docs)) with
    | error e => rw [hg] at h; simp at h
    | ok resp =>
      rw [hg] at h
      simp only [Except.ok.injEq] at h
      have hsub : ∀ u ∈ urls, pyStartsWith u "http" = true := by
        intro u hu
        have hmem : u ∈ parseSelectedUrls resp := by
          by_cases hl : (parseSelectedUrls resp).length ≥ 5
          · rw [if_pos hl] at h
            rw [← h] at hu
            exact List.take_subset _ _ hu
          · rw [if_neg hl] at h
            rw [← h] at hu
            exact hu
        unfold parseSelectedUrls at hmem
        exact (List.mem_filter.mp hmem).2
      refine ⟨?_, hsub⟩
      by_cases hl : (parseSelectedUrls resp).length ≥ 5
      · rw [if_pos hl] at h
        rw [← h]
        exact List.length_take_le 5 (parseSelectedUrls resp)
      · rw [if_neg hl] at h
        rw [← h]
        omega

theorem C4_witness :
    getWikipediaUrlsBody (fun _ => .ok tenDocs)
        (fun _ => .ok "https://en.wikipedia.org/wiki/Health_care\ngarbage line") "automotive"
      = .ok ["https://en.wikipedia.org/wiki/Health_care"] ∧
    ((["https://en.wikipedia.org/wiki/Health_care"] : List String).length ≤ 5 ∧
      ∀ u ∈ (["https://en.wikipedia.org/wiki/Health_care"] : List String),
        pyStartsWith u "http" = true) :=
  ⟨rfl,
    C4_selection_parsing (fun _ => .ok tenDocs)
      (fun _ => .ok "https://en.wikipedia.org/wiki/Health_care\ngarbage line") "automotive"
      ["https://en.wikipedia.org/wiki/Health_care"] rfl⟩

end MRA
namespace MRA

/-- C5: counterexample — the context building of `generate_report` has
no top-5 hard cap of its own (6 input URLs yield 6 content blocks) and
produces no "SOURCE [i]" labels (the combined context of a retrieved
document is its bare excerpt, containing no "SOURCE" substring). -/
theorem C5_counterexample :
    (allContent (fun _ => .ok [⟨some "u", "b"⟩])
      ["u1", "u2", "u3", "u4", "u5", "u6"]).length = 6 ∧
    pyContains (combinedContent (fun _ => .ok [⟨none, "plain body text"⟩])
      ["https://en.wikipedia.org/wiki/X"]) "SOURCE" = false :=
  ⟨rfl, by decide⟩

/-- C5 (amended): `generate_report` builds its grounding context from
every input URL (at most one block per URL, no additional cap beyond
the at-most-5 URLs produced upstream): each block is the first 3000
characters of the first document retrieved for the page title of the
URL,
unlabeled, and the blocks are joined with the visible separator. -/
theorem C5_context_blocks (retr : Retriever) (urls : List String) :
    (allContent retr urls).length ≤ urls.length ∧
    combinedContent retr urls = String.intercalate "\n\n---\n\n" (allContent retr urls) ∧
    ∀ b ∈ allContent retr urls, ∃ url ∈ urls, ∃ (d : Doc) (rest : List Doc),
      retr (pageTitleFromUrl url) = .ok (d :: rest) ∧ b = pySliceTo 3000 d.content := by
  refine ⟨List.length_filterMap_le _ _, rfl, ?_⟩
  intro b hb
  unfold allContent at hb
  rw [List.mem_filterMap] at hb
  obtain ⟨url, hurl, hf⟩ := hb
  refine ⟨url, hurl, ?_⟩
  cases hr : retr (pageTitleFromUrl url) with
  | error e => rw [hr] at hf; simp at hf
  | ok docs =>
    rw [hr] at hf
    cases docs with
    | nil => simp at hf
    | cons d rest =>
      simp only [Option.some.injEq] at hf
      exact ⟨d, rest, rfl, hf.symm⟩

theorem C5_witness :
    (allContent (fun _ => .ok [⟨none, "text"⟩]) ["https://en.wikipedia.org/wiki/X"]).length
        ≤ 1 ∧
    ∃ url ∈ (["https://en.wikipedia.org/wiki/X"] : List String),
      ∃ (d : Doc) (rest : List Doc),
        (fun _ => (.ok [⟨none, "text"⟩] : Except String (List Doc)))
            (pageTitleFromUrl url) = .ok (d :: rest) ∧
        ("text" : String) = pySliceTo 3000 d.content :=
  ⟨(C5_context_blocks (fun _ => .ok [⟨none, "text"⟩]) ["https://en.wikipedia.org/wiki/X"]).1,
   (C5_context_blocks (fun _ => .ok [⟨none, "text"⟩]) ["https://en.wikipedia.org/wiki/X"]).2.2
     "text" (by decide)⟩

/-- C6: the spec-modelled URL constructor substitutes each space of the
identifier with an underscore inside the fixed
`https://{lang}.wikipedia.org/wiki/{...}` shape: on "Health care" it
yields exactly "https://en.wikipedia.org/wiki/Health_care", and the
inverse title extraction of src/app.py line 150 maps that URL back to
"Health care". -/
theorem C6_url_transform :
    build_wikipedia_url "en" "Health care" = "https://en.wikipedia.org/wiki/Health_care" ∧
    pageTitleFromUrl (build_wikipedia_url "en" "Health care") = "Health care" :=
  ⟨by decide, by decide⟩

/-- C8: under the spec-modelled Strategy A scorer, for every document
body, the title "Health care killing" (which carries the
negative-signal term "killing") scores strictly lower for the query
"health care" than "Health care industry" — the body contribution is
identical for both, and the title contributions are 6 and 23. -/
theorem C8_negative_signal_penalty (body : String) :
    score_wiki_doc "Health care killing" body "health care" <
      score_wiki_doc "Health care industry" body "health care" := by
  unfold score_wiki_doc
  have h1 : titleScore (pyLower "Health care industry") (pyLower "health care") = 23 := by
    decide
  have h2 : titleScore (pyLower "Health care killing") (pyLower "health care") = 6 := by
    decide
  rw [h1, h2]
  omega

/-- Helper for C10: when the retrieval of every URL fails or returns no
documents, the content list is empty. -/
theorem allContent_nil_of_fails (retr : Retriever) (urls : List String)
    (h : ∀ u ∈ urls, (∃ e, retr (pageTitleFromUrl u) = .error e) ∨
      retr (pageTitleFromUrl u) = .ok []) :
    allContent retr urls = [] := by
  induction urls with
  | nil => rfl
  | cons u rest ih =>
    have hrest : allContent retr rest = [] :=
      ih fun v hv => h v (List.mem_cons_of_mem u hv)
    rcases h u (List.mem_cons_self u rest) with ⟨e, he⟩ | he <;>
      · show allContent retr (u :: rest) = []
        unfold allContent
        rw [List.filterMap_cons]
        simp only [he]
        exact hrest

/-- C10: in `generate_report`, a URL whose retrieval raises an
exception or yields no documents is silently skipped — the content
list is the one obtained with that URL absent — and when every URL
fails the generation request is still issued, with empty grounding
content. -/
theorem C10_failed_urls_skipped :
    (∀ (retr : Retriever) (pre post : List String) (url : String),
       ((∃ e, retr (pageTitleFromUrl url) = .error e) ∨
         retr (pageTitleFromUrl url) = .ok []) →
       allContent retr (pre ++ url :: post) = allContent retr (pre ++ post)) ∧
    (∀ (retr : Retriever) (gen : GenService) (ind : String) (urls : List String)
       (resp : String),
       (∀ u ∈ urls, (∃ e, retr (pageTitleFromUrl u) = .error e) ∨
         retr (pageTitleFromUrl u) = .ok []) →
       gen (reportPrompt ind "") = .ok resp →
       wordCount (pyStrip resp) ≤ 500 →
       generateReportBody retr gen ind urls = .ok (pyStrip resp, [reportPrompt ind ""])) := by
  constructor
  · intro retr pre post url hfail
    rcases hfail with ⟨e, he⟩ | he <;>
      simp [allContent, List.filterMap_append, List.filterMap_cons, he]
  · intro retr gen ind urls resp hall hgen hwc
    have hempty : allContent retr urls = [] := allContent_nil_of_fails retr urls hall
    have hcomb : combinedContent retr urls = "" := by
      unfold combinedContent
      rw [hempty]
      rfl
    have hsl : pySliceTo 15000 "" = "" := rfl
    simp only [generateReportBody, hcomb, hsl, hgen]
    rw [if_neg (by omega)]

theorem C10_witness :
    allContent (fun _ => .error "down")
        ["https://en.wikipedia.org/wiki/A", "https://en.wikipedia.org/wiki/B"] =
      allContent (fun _ => .error "down") ["https://en.wikipedia.org/wiki/B"] ∧
    generateReportBody (fun _ => .error "down") (fun _ => .ok "short report") "automotive"
        ["https://en.wikipedia.org/wiki/A"] =
      .ok (pyStrip "short report", [reportPrompt "automotive" ""]) :=
  ⟨C10_failed_urls_skipped.1 (fun _ => .error "down") [] ["https://en.wikipedia.org/wiki/B"]
      "https://en.wikipedia.org/wiki/A" (Or.inl ⟨"down", rfl⟩),
   C10_failed_urls_skipped.2 (fun _ => .error "down") (fun _ => .ok "short report")
      "automotive" ["https://en.wikipedia.org/wiki/A"] "short report"
      (fun u _ => Or.inl ⟨"down", rfl⟩) rfl (by decide)⟩

end MRA
